import Mathlib

/-!
Shallow embedding of the judge_micro sandbox execution engine
(src/judge_micro/services/micro.py and src/judge_micro/api/routes/judge.py).

The engine drives a container runtime.  Every interaction with the runtime
(create, start, put-archive, exec, get-archive, stop, remove) is an external
effect whose outcome the engine merely observes; we model one execution by an
environment record that fixes the outcome of each such call (success value or
raised exception) together with the engine-observed wall-clock readings
(`time.time()` differences).  The embedded functions then compute exactly the
dictionary the Python code returns on that environment, together with a trace
of the container-runtime calls issued.

Machine conventions:
* Python dicts returned to the caller are association lists `JObj` in
  insertion order; `dict[k] = v` is `JObj.set` (replace in place, else append).
* A Python `try`/`except` around a runtime call is a `match` on the
  environment's `Except String _` field for that call.
* Wall-clock readings are rationals.  Each distinct `time.time()` subtraction
  the code performs is an independent observation; observations that no
  property refers to (the `execution_time` fields of error dictionaries) are
  collapsed into single environment fields (`elapsedTotal`,
  `compileElapsedRet`), with a comment at each use.
-/

set_option autoImplicit false

/-- A JSON-ish value as carried in the engine's result dictionaries. -/
inductive JVal where
  | num (q : ℚ)
  | str (s : String)
  | bool (b : Bool)
  | null
  deriving DecidableEq

/-- A Python dict with string keys, in insertion order. -/
abbrev JObj : Type := List (String × JVal)

/-- Dict lookup: first binding of the key. -/
def JObj.get (o : JObj) (k : String) : Option JVal :=
  (List.find? (fun p => p.1 = k) o).map (fun p => p.2)

/-- Python `d[k] = v`: replace the binding in place if the key is present,
else append it. -/
def JObj.set (o : JObj) (k : String) (v : JVal) : JObj :=
  if List.any o (fun p => p.1 = k) then
    List.map (fun p => if p.1 = k then (k, v) else p) o
  else
    o ++ [(k, v)]

/-- One byte, as produced by `exec_run(...).output`. -/
def isContByte (b : ℕ) : Bool := 0x80 ≤ b && b ≤ 0xBF

/-- Modelled from Python's `bytes.decode('utf-8', errors=...)` (the standard
library decoder the source calls; it is not part of this repository).
`onErr` is the decoder's action on an invalid sequence: `[]` for
`errors='ignore'`, the replacement character for `errors='replace'`.
On an invalid sequence the model consumes the offending lead byte.
The fuel argument only makes the recursion structural; the wrapper passes
the list length, which every step stays below. -/
def utf8DecodeFuel (onErr : List Char) : ℕ → List ℕ → List Char
  | 0, _ => []
  | _, [] => []
  | fuel + 1, b :: rest =>
    if b < 0x80 then Char.ofNat b :: utf8DecodeFuel onErr fuel rest
    else if 0xC2 ≤ b && b ≤ 0xDF then
      match rest with
      | c1 :: rest2 =>
        if isContByte c1 then
          Char.ofNat ((b - 0xC0) * 64 + (c1 - 0x80))
            :: utf8DecodeFuel onErr fuel rest2
        else onErr ++ utf8DecodeFuel onErr fuel (c1 :: rest2)
      | [] => onErr
    else if 0xE0 ≤ b && b ≤ 0xEF then
      match rest with
      | c1 :: c2 :: rest2 =>
        if isContByte c1 && isContByte c2
            && (!(b = 0xE0) || 0xA0 ≤ c1) && (!(b = 0xED) || c1 ≤ 0x9F) then
          Char.ofNat ((b - 0xE0) * 4096 + (c1 - 0x80) * 64 + (c2 - 0x80))
            :: utf8DecodeFuel onErr fuel rest2
        else onErr ++ utf8DecodeFuel onErr fuel (c1 :: c2 :: rest2)
      | [c1] => onErr ++ utf8DecodeFuel onErr fuel [c1]
      | [] => onErr
    else if 0xF0 ≤ b && b ≤ 0xF4 then
      match rest with
      | c1 :: c2 :: c3 :: rest2 =>
        if isContByte c1 && isContByte c2 && isContByte c3
            && (!(b = 0xF0) || 0x90 ≤ c1) && (!(b = 0xF4) || c1 ≤ 0x8F) then
          Char.ofNat ((b - 0xF0) * 262144 + (c1 - 0x80) * 4096
              + (c2 - 0x80) * 64 + (c3 - 0x80))
            :: utf8DecodeFuel onErr fuel rest2
        else onErr ++ utf8DecodeFuel onErr fuel (c1 :: c2 :: c3 :: rest2)
      | [c1, c2] => onErr ++ utf8DecodeFuel onErr fuel [c1, c2]
      | [c1] => onErr ++ utf8DecodeFuel onErr fuel [c1]
      | [] => onErr
    else onErr ++ utf8DecodeFuel onErr fuel rest

/-- Decode a whole byte list. -/
def utf8DecodeAux (onErr : List Char) (bs : List ℕ) : List Char :=
  utf8DecodeFuel onErr bs.length bs

/-- `bytes.decode('utf-8', errors='ignore')`. -/
def utf8DecodeIgnore (bs : List ℕ) : String := String.mk (utf8DecodeAux [] bs)

/-- `bytes.decode('utf-8', errors='replace')`. -/
def utf8DecodeReplace (bs : List ℕ) : String :=
  String.mk (utf8DecodeAux [Char.ofNat 0xFFFD] bs)

/-- Result of a `container.exec_run` call that returned (did not raise). -/
structure ExecResult where
  exit_code : ℕ
  output : List ℕ
  deriving DecidableEq

/-- A container-runtime call issued by the engine.  `create` is recorded when
creation succeeded (the Python `container` variable is then non-None);
the other actions record that the call was issued. -/
inductive CAction where
  | create
  | start
  | put
  | exec (cmd : String)
  | getArchive
  | stop
  | remove
  deriving DecidableEq

/-- Outcomes of the container-runtime calls of one `run_microservice`
invocation, plus the engine's wall-clock observations. -/
structure SingleEnv where
  createRes : Except String Unit
  startRes : Except String Unit
  putRes : Except String Unit
  compileRes : Except String ExecResult
  /-- `compile_execution_time = time.time() - compile_start_time` observed
  right after the compile exec (micro.py line 119). -/
  compileWall : ℚ
  /-- outcome of `container.stop(timeout=1)` in the compile-wall-timeout
  branch (line 125). -/
  stopCompileRes : Except String Unit
  testRes : Except String ExecResult
  /-- `test_execution_time = time.time() - test_start_time` observed right
  after the test exec (line 189). -/
  testWall : ℚ
  /-- outcome of `container.stop(timeout=1)` in the test-wall-timeout branch
  (line 193). -/
  stopTestRes : Except String Unit
  /-- get-archive + tar-extract + `json.loads` of `/app/result.json`
  (lines 223-225), as a whole. -/
  collectRes : Except String JObj
  /-- `elapsed = time.time() - start_time` at the successful collect
  (line 227). -/
  collectTotal : ℚ
  /-- `test_elapsed = time.time() - test_start_time` at the successful
  collect (line 228). -/
  collectTest : ℚ
  /-- `compile_elapsed = time.time() - compile_start_time` at the successful
  collect (line 229). -/
  collectCompile : ℚ
  /-- stands for any of the `time.time() - start_time` observations made in
  the error-return dictionaries; no property refers to them. -/
  elapsedTotal : ℚ
  /-- stands for any of the `time.time() - compile_start_time` observations
  made in the error-return dictionaries; no property refers to them. -/
  compileElapsedRet : ℚ

/-- Outcomes of the teardown calls in the `finally` block. -/
structure TeardownEnv where
  stopRes : Except String Unit
  removeRes : Except String Unit

def kStatus : String := "status"
def kMessage : String := "message"
def kCompileOutput : String := "compile_output"
def kExecutionTime : String := "execution_time"
def kCompileExecutionTime : String := "compile_execution_time"
def kTestExecutionTime : String := "test_execution_time"
def kTotalExecutionTime : String := "total_execution_time"
def kExitCode : String := "exit_code"
def kConfigIndex : String := "config_index"

def sCompileTimeoutStatus : String := "COMPILE_TIMEOUT"
def sCompileErrorStatus : String := "COMPILE_ERROR"
def sTimeoutStatus : String := "TIMEOUT"
def sTimeoutErrorStatus : String := "TIMEOUT_ERROR"
def sErrorStatus : String := "ERROR"
def sSuccessStatus : String := "SUCCESS"

def msgCompileTimeout (t : ℕ) : String :=
  "Compilation exceeded timeout limit of " ++ toString t ++ " seconds"
def msgCompileExn (e : String) : String := "Compilation error: " ++ e
def msgCompilationFailed : String := "Compilation failed"
def msgTestTimeout (e : ℕ) : String :=
  "Test execution exceeded timeout limit of " ++ toString e ++ " seconds"
def msgTimeoutHandling (e : String) : String := "Timeout handling error: " ++ e
def msgUnableRead (e : String) : String := "Unable to read result: " ++ e
def msgTestExn (e : String) : String := "Test execution error: " ++ e

/-- The compile command string built at micro.py lines 114-115 / 456-457. -/
def compileCmd (t : ℕ) : String :=
  "bash -c \x27timeout " ++ toString t
    ++ " bash -c \"make clean >/dev/null 2>&1 && make build >/dev/null 2>&1\"\x27"

/-- The test command with the in-container `timeout` wrapper
(lines 183-184 / 532-533). -/
def testCmdWrapped (e : ℕ) : String :=
  "bash -c \x27timeout " ++ toString e ++ " make test >/dev/null 2>&1\x27"

/-- The test command without the wrapper, used when `continue_on_timeout`
is set (lines 175-176 / 527-528). -/
def testCmdPlain : String := "bash -c \x27make test >/dev/null 2>&1\x27"

def isPythonLang (language : String) : Bool := language.startsWith ("python")

/-- `user.py` / `user.c` / `user.cpp` selection (lines 95-98 / 438-441). -/
def userFilename (language : String) : String :=
  if isPythonLang language then "user.py"
  else if language = "c" then "user.c" else "user.cpp"

/-- Dict returned at lines 126-131 and 136-141. -/
def errCompileTimeout (t : ℕ) (execT cT : ℚ) : JObj :=
  [(kStatus, JVal.str sCompileTimeoutStatus),
   (kMessage, JVal.str (msgCompileTimeout t)),
   (kExecutionTime, JVal.num execT),
   (kCompileExecutionTime, JVal.num cT)]

/-- Dict returned at lines 143-149 (nonzero compile exit code). -/
def errCompileOutput (out : String) (execT cT : ℚ) : JObj :=
  [(kStatus, JVal.str sCompileErrorStatus),
   (kMessage, JVal.str msgCompilationFailed),
   (kCompileOutput, JVal.str out),
   (kExecutionTime, JVal.num execT),
   (kCompileExecutionTime, JVal.num cT)]

/-- Dict returned at lines 152-157 (exception during the compile step). -/
def errCompileExn (e : String) (execT cT : ℚ) : JObj :=
  [(kStatus, JVal.str sCompileErrorStatus),
   (kMessage, JVal.str (msgCompileExn e)),
   (kExecutionTime, JVal.num execT),
   (kCompileExecutionTime, JVal.num cT)]

/-- Dict returned at lines 194-200 and 204-210. -/
def errTestTimeout (e : ℕ) (execT testT cT : ℚ) : JObj :=
  [(kStatus, JVal.str sTimeoutStatus),
   (kMessage, JVal.str (msgTestTimeout e)),
   (kExecutionTime, JVal.num execT),
   (kTestExecutionTime, JVal.num testT),
   (kCompileExecutionTime, JVal.num cT)]

/-- Dict returned at lines 213-219 (exception during timeout handling). -/
def errTimeoutExn (e : String) (execT testT cT : ℚ) : JObj :=
  [(kStatus, JVal.str sTimeoutErrorStatus),
   (kMessage, JVal.str (msgTimeoutHandling e)),
   (kExecutionTime, JVal.num execT),
   (kTestExecutionTime, JVal.num testT),
   (kCompileExecutionTime, JVal.num cT)]

/-- Dict returned at lines 241-246 (result collection failed). -/
def errCollect (e : String) (code : ℕ) (execT : ℚ) : JObj :=
  [(kStatus, JVal.str sErrorStatus),
   (kMessage, JVal.str (msgUnableRead e)),
   (kExitCode, JVal.num (code : ℚ)),
   (kExecutionTime, JVal.num execT)]

/-- Dict returned at lines 249-253 (outer exception handler). -/
def errOuter (e : String) (execT : ℚ) : JObj :=
  [(kStatus, JVal.str sErrorStatus),
   (kMessage, JVal.str e),
   (kExecutionTime, JVal.num execT)]

/-- Successful collect (lines 227-238): parse `result.json`, then add the
engine-observed timings, overwriting same-named keys. -/
def collectSuccess (j : JObj) (total testT cT : ℚ) : JObj :=
  ((j.set kTotalExecutionTime (JVal.num total)).set kTestExecutionTime
      (JVal.num testT)).set kCompileExecutionTime (JVal.num cT)

/-- Steps 5-6 of `run_microservice` (lines 165-246): the test exec and the
result collection.  Returns the dictionary and the container calls this
stage issues. -/
def runExecStage (continueOnTimeout : Bool) (executionTimeoutVal : ℕ)
    (env : SingleEnv) : JObj × List CAction :=
  if continueOnTimeout then
    match env.testRes with
    | Except.error e =>
      -- the exception propagates to the outer handler at line 248
      (errOuter e env.elapsedTotal, [CAction.exec testCmdPlain])
    | Except.ok r =>
      match env.collectRes with
      | Except.ok j =>
        (collectSuccess j env.collectTotal env.collectTest env.collectCompile,
         [CAction.exec testCmdPlain, CAction.getArchive])
      | Except.error e =>
        (errCollect e r.exit_code env.elapsedTotal,
         [CAction.exec testCmdPlain, CAction.getArchive])
  else
    match env.testRes with
    | Except.error e =>
      (errTimeoutExn e env.elapsedTotal env.testWall env.compileElapsedRet,
       [CAction.exec (testCmdWrapped executionTimeoutVal)])
    | Except.ok r =>
      if env.testWall > (executionTimeoutVal : ℚ) then
        match env.stopTestRes with
        | Except.ok _ =>
          (errTestTimeout executionTimeoutVal env.elapsedTotal env.testWall
              env.compileElapsedRet,
           [CAction.exec (testCmdWrapped executionTimeoutVal), CAction.stop])
        | Except.error e =>
          -- the stop call raised inside the `try` at line 181
          (errTimeoutExn e env.elapsedTotal env.testWall env.compileElapsedRet,
           [CAction.exec (testCmdWrapped executionTimeoutVal), CAction.stop])
      else if r.exit_code = 124 then
        (errTestTimeout executionTimeoutVal env.elapsedTotal env.testWall
            env.compileElapsedRet,
         [CAction.exec (testCmdWrapped executionTimeoutVal)])
      else
        match env.collectRes with
        | Except.ok j =>
          (collectSuccess j env.collectTotal env.collectTest env.collectCompile,
           [CAction.exec (testCmdWrapped executionTimeoutVal),
            CAction.getArchive])
        | Except.error e =>
          (errCollect e r.exit_code env.elapsedTotal,
           [CAction.exec (testCmdWrapped executionTimeoutVal),
            CAction.getArchive])

/-- The body of `run_microservice` (micro.py lines 47-253) without the
`finally` teardown.  `IMAGES` is the key set of the `DOCKER_IMAGES` mapping
(imported from a module outside src/; its contents are opaque here).
`Except.error ()` is the `ValueError` raised for an unsupported language
before the `try` block.  The `Bool` component records whether the container
was created (the Python `container` variable is non-None). -/
def run_core (IMAGES : List String) (continueOnTimeout : Bool)
    (language : String) (compileTimeoutVal executionTimeoutVal : ℕ)
    (env : SingleEnv) : Except Unit (JObj × List CAction × Bool) :=
  if ¬ IMAGES.contains language then Except.error () else
  Except.ok <|
  match env.createRes with
  | Except.error e => (errOuter e env.elapsedTotal, [], false)
  | Except.ok _ =>
  match env.startRes with
  | Except.error e =>
    (errOuter e env.elapsedTotal, [CAction.create, CAction.start], true)
  | Except.ok _ =>
  match env.putRes with
  | Except.error e =>
    (errOuter e env.elapsedTotal,
     [CAction.create, CAction.start, CAction.put], true)
  | Except.ok _ =>
    let tr0 : List CAction := [CAction.create, CAction.start, CAction.put]
    if isPythonLang language then
      let st := runExecStage continueOnTimeout executionTimeoutVal env
      (st.1, tr0 ++ st.2, true)
    else
      match env.compileRes with
      | Except.error e =>
        (errCompileExn e env.elapsedTotal env.compileElapsedRet,
         tr0 ++ [CAction.exec (compileCmd compileTimeoutVal)], true)
      | Except.ok c =>
        let trc := tr0 ++ [CAction.exec (compileCmd compileTimeoutVal)]
        if env.compileWall > (compileTimeoutVal : ℚ) then
          match env.stopCompileRes with
          | Except.ok _ =>
            (errCompileTimeout compileTimeoutVal env.elapsedTotal
                env.compileWall, trc ++ [CAction.stop], true)
          | Except.error e =>
            -- the stop call raised inside the `try` at line 113
            (errCompileExn e env.elapsedTotal env.compileElapsedRet,
             trc ++ [CAction.stop], true)
        else if c.exit_code ≠ 0 then
          if c.exit_code = 124 then
            (errCompileTimeout compileTimeoutVal env.elapsedTotal
                env.compileWall, trc, true)
          else
            (errCompileOutput (utf8DecodeIgnore c.output) env.elapsedTotal
                env.compileWall, trc, true)
        else
          let st := runExecStage continueOnTimeout executionTimeoutVal env
          (st.1, trc ++ st.2, true)

/-- The teardown calls the `finally` block issues: `stop` is always
attempted; `remove` only runs when `stop` did not raise (lines 256-266);
a raise is swallowed. -/
def teardownTrace (td : TeardownEnv) : List CAction :=
  match td.stopRes with
  | Except.ok _ => [CAction.stop, CAction.remove]
  | Except.error _ => [CAction.stop]

/-- `JudgeMicroservice.run_microservice` (micro.py lines 47-266): the body
followed by the unconditional `finally` teardown when a container exists. -/
def run_microservice (IMAGES : List String) (continueOnTimeout : Bool)
    (language : String) (compileTimeoutVal executionTimeoutVal : ℕ)
    (env : SingleEnv) (td : TeardownEnv) : Except Unit (JObj × List CAction) :=
  match run_core IMAGES continueOnTimeout language compileTimeoutVal
      executionTimeoutVal env with
  | Except.error e => Except.error e
  | Except.ok (r, tr, created) =>
    Except.ok (r, tr ++ (if created then teardownTrace td else []))

/-- Outcomes of the per-configuration container calls inside the
`optimized_batch_test` loop (micro.py lines 514-602), for one index. -/
structure TestEnv where
  putConfigRes : Except String Unit
  execRes : Except String ExecResult
  /-- `test_execution_time = time.time() - test_start_time` observed right
  after the test exec (line 537). -/
  wall : ℚ
  /-- get-archive + tar-extract + `json.loads` of `/app/result.json`
  (lines 564-566), as a whole. -/
  collectRes : Except String JObj
  /-- `test_elapsed` at the successful collect (line 568). -/
  collectTest : ℚ
  /-- `total_elapsed` at the successful collect (line 569). -/
  collectTotal : ℚ
  /-- stands for the `time.time() - start_time` observations of this
  iteration's error dictionaries; no property refers to them. -/
  elapsedTotal : ℚ
  /-- stands for the `time.time() - test_start_time` observations of this
  iteration's error dictionaries; no property refers to them. -/
  testElapsedRet : ℚ

/-- Outcomes of the container-runtime calls of one `optimized_batch_test`
invocation. -/
structure BatchEnv where
  createRes : Except String Unit
  startRes : Except String Unit
  putUserRes : Except String Unit
  compileRes : Except String ExecResult
  /-- `compile_execution_time` observed right after the compile exec
  (line 461). -/
  compileWall : ℚ
  /-- the per-iteration call outcomes; index `i` serves configuration `i`. -/
  tests : ℕ → TestEnv
  /-- stands for the `time.time() - start_time` observations of the
  batch-level error dictionaries; no property refers to them. -/
  elapsedTotal : ℚ
  /-- stands for the `time.time() - compile_start_time` observation in the
  compile-exception dictionary (line 500); no property refers to it. -/
  compileElapsedRet : ℚ

/-- Dict appended at lines 541-548 and 552-559. -/
def batchTimeoutObj (e : ℕ) (execT testT cT : ℚ) (i : ℕ) : JObj :=
  [(kStatus, JVal.str sTimeoutStatus),
   (kMessage, JVal.str (msgTestTimeout e)),
   (kExecutionTime, JVal.num execT),
   (kTestExecutionTime, JVal.num testT),
   (kCompileExecutionTime, JVal.num cT),
   (kConfigIndex, JVal.num (i : ℚ))]

/-- Dict appended at lines 584-592 (result collection failed). -/
def batchCollectErrObj (e : String) (code : ℕ) (execT testT cT : ℚ)
    (i : ℕ) : JObj :=
  [(kStatus, JVal.str sErrorStatus),
   (kMessage, JVal.str (msgUnableRead e)),
   (kExitCode, JVal.num (code : ℚ)),
   (kExecutionTime, JVal.num execT),
   (kTestExecutionTime, JVal.num testT),
   (kCompileExecutionTime, JVal.num cT),
   (kConfigIndex, JVal.num (i : ℚ))]

/-- Dict appended at lines 595-602 (exception during one iteration). -/
def batchTestErrObj (e : String) (execT testT cT : ℚ) (i : ℕ) : JObj :=
  [(kStatus, JVal.str sErrorStatus),
   (kMessage, JVal.str (msgTestExn e)),
   (kExecutionTime, JVal.num execT),
   (kTestExecutionTime, JVal.num testT),
   (kCompileExecutionTime, JVal.num cT),
   (kConfigIndex, JVal.num (i : ℚ))]

/-- Dict returned per config at lines 611-616 (outer exception handler). -/
def batchOuterErrObj (e : String) (execT : ℚ) (i : ℕ) : JObj :=
  [(kStatus, JVal.str sErrorStatus),
   (kMessage, JVal.str e),
   (kExecutionTime, JVal.num execT),
   (kConfigIndex, JVal.num (i : ℚ))]

/-- Successful collect of one batch iteration (lines 564-577): timings then
`config_index` are added, overwriting same-named keys. -/
def batchCollectSuccess (j : JObj) (total testT cT : ℚ) (i : ℕ) : JObj :=
  (collectSuccess j total testT cT).set kConfigIndex (JVal.num (i : ℚ))

/-- `dict(error_result, config_index=i)` (lines 493, 502) and the inline
fan-out dict of lines 467-473: the shared compile-failure dict extended
with this config's index. -/
def fanWithIndex (base : JObj) (n : ℕ) : List JObj :=
  (List.range n).map
    (fun i : ℕ => base ++ [(kConfigIndex, JVal.num (i : ℚ))])

/-- One iteration of the configuration loop (micro.py lines 514-602):
upload this config, run the test, collect, with every failure caught and
turned into an appended error dict. -/
def batchStep (continueOnTimeout : Bool) (executionTimeoutVal : ℕ)
    (compileElapsed : ℚ) (i : ℕ) (te : TestEnv) : JObj × List CAction :=
  match te.putConfigRes with
  | Except.error e =>
    (batchTestErrObj e te.elapsedTotal te.testElapsedRet compileElapsed i,
     [CAction.put])
  | Except.ok _ =>
    if continueOnTimeout then
      match te.execRes with
      | Except.error e =>
        (batchTestErrObj e te.elapsedTotal te.testElapsedRet compileElapsed i,
         [CAction.put, CAction.exec testCmdPlain])
      | Except.ok r =>
        match te.collectRes with
        | Except.ok j =>
          (batchCollectSuccess j te.collectTotal te.collectTest compileElapsed i,
           [CAction.put, CAction.exec testCmdPlain, CAction.getArchive])
        | Except.error e =>
          (batchCollectErrObj e r.exit_code te.elapsedTotal te.testElapsedRet
              compileElapsed i,
           [CAction.put, CAction.exec testCmdPlain, CAction.getArchive])
    else
      match te.execRes with
      | Except.error e =>
        (batchTestErrObj e te.elapsedTotal te.testElapsedRet compileElapsed i,
         [CAction.put, CAction.exec (testCmdWrapped executionTimeoutVal)])
      | Except.ok r =>
        if te.wall > (executionTimeoutVal : ℚ) then
          (batchTimeoutObj executionTimeoutVal te.elapsedTotal te.wall
              compileElapsed i,
           [CAction.put, CAction.exec (testCmdWrapped executionTimeoutVal)])
        else if r.exit_code = 124 then
          (batchTimeoutObj executionTimeoutVal te.elapsedTotal te.wall
              compileElapsed i,
           [CAction.put, CAction.exec (testCmdWrapped executionTimeoutVal)])
        else
          match te.collectRes with
          | Except.ok j =>
            (batchCollectSuccess j te.collectTotal te.collectTest
                compileElapsed i,
             [CAction.put, CAction.exec (testCmdWrapped executionTimeoutVal),
              CAction.getArchive])
          | Except.error e =>
            (batchCollectErrObj e r.exit_code te.elapsedTotal
                te.testElapsedRet compileElapsed i,
             [CAction.put, CAction.exec (testCmdWrapped executionTimeoutVal),
              CAction.getArchive])

/-- The configuration loop over indices `0..n-1`: the appended results and
the concatenated trace. -/
def batchLoop (continueOnTimeout : Bool) (executionTimeoutVal : ℕ)
    (compileElapsed : ℚ) (n : ℕ) (tests : ℕ → TestEnv) :
    List JObj × List CAction :=
  ((List.range n).map (fun i =>
      (batchStep continueOnTimeout executionTimeoutVal compileElapsed i
        (tests i)).1),
   (List.range n).flatMap (fun i =>
      (batchStep continueOnTimeout executionTimeoutVal compileElapsed i
        (tests i)).2))

/-- The body of `optimized_batch_test` (micro.py lines 381-616) without the
`finally` teardown.  `Except.error ()` is the `ValueError` raised for an
unsupported language before the `try` block; the empty-configs early return
also happens before it. -/
def batch_core (IMAGES : List String) (continueOnTimeout : Bool)
    (language : String) (compileTimeoutVal executionTimeoutVal : ℕ)
    (configs : List JObj) (env : BatchEnv) :
    Except Unit (List JObj × List CAction × Bool) :=
  if ¬ IMAGES.contains language then Except.error () else
  if configs.isEmpty then Except.ok ([], [], false) else
  Except.ok <|
  match env.createRes with
  | Except.error e =>
    ((List.range configs.length).map
        (fun i => batchOuterErrObj e env.elapsedTotal i), [], false)
  | Except.ok _ =>
  match env.startRes with
  | Except.error e =>
    ((List.range configs.length).map
        (fun i => batchOuterErrObj e env.elapsedTotal i),
     [CAction.create, CAction.start], true)
  | Except.ok _ =>
  match env.putUserRes with
  | Except.error e =>
    ((List.range configs.length).map
        (fun i => batchOuterErrObj e env.elapsedTotal i),
     [CAction.create, CAction.start, CAction.put], true)
  | Except.ok _ =>
    let tr0 : List CAction := [CAction.create, CAction.start, CAction.put]
    if isPythonLang language then
      -- Python: compilation skipped, compile_execution_time = 0 (line 509)
      let lp := batchLoop continueOnTimeout executionTimeoutVal 0
          configs.length env.tests
      (lp.1, tr0 ++ lp.2, true)
    else
      match env.compileRes with
      | Except.error e =>
        ((fanWithIndex (errCompileExn e env.elapsedTotal env.compileElapsedRet)
            configs.length),
         tr0 ++ [CAction.exec (compileCmd compileTimeoutVal)], true)
      | Except.ok c =>
        let trc := tr0 ++ [CAction.exec (compileCmd compileTimeoutVal)]
        if env.compileWall > (compileTimeoutVal : ℚ) then
          (fanWithIndex (errCompileTimeout compileTimeoutVal env.elapsedTotal
              env.compileWall) configs.length, trc, true)
        else if c.exit_code ≠ 0 then
          if c.exit_code = 124 then
            (fanWithIndex (errCompileTimeout compileTimeoutVal
                env.elapsedTotal env.compileWall) configs.length, trc, true)
          else
            (fanWithIndex (errCompileOutput (utf8DecodeIgnore c.output)
                env.elapsedTotal env.compileWall) configs.length, trc, true)
        else
          let lp := batchLoop continueOnTimeout executionTimeoutVal
              env.compileWall configs.length env.tests
          (lp.1, trc ++ lp.2, true)

/-- `JudgeMicroservice.optimized_batch_test` (micro.py lines 381-629): the
body followed by the unconditional `finally` teardown when a container
exists. -/
def optimized_batch_test (IMAGES : List String) (continueOnTimeout : Bool)
    (language : String) (compileTimeoutVal executionTimeoutVal : ℕ)
    (configs : List JObj) (env : BatchEnv) (td : TeardownEnv) :
    Except Unit (List JObj × List CAction) :=
  match batch_core IMAGES continueOnTimeout language compileTimeoutVal
      executionTimeoutVal configs env with
  | Except.error e => Except.error e
  | Except.ok (rs, tr, created) =>
    Except.ok (rs, tr ++ (if created then teardownTrace td else []))

/-- Modelled from the spec: the status enumeration of the HTTP response
model (`JudgeStatus` in `judge_micro.api.models.judge`, a module whose file
is not part of src/; spec 4.C lists the variants and 6 gives the engine
status strings).  The canonical variant names. -/
def judgeStatusStrings : List String :=
  [sSuccessStatus, sCompileErrorStatus, sCompileTimeoutStatus,
   sTimeoutStatus, sTimeoutErrorStatus, sErrorStatus]

/-- ASCII upper-casing of one character (the status strings are ASCII). -/
def charUp (c : Char) : Char :=
  if 97 ≤ c.toNat ∧ c.toNat ≤ 122 then Char.ofNat (c.toNat - 32) else c

/-- ASCII upper-casing of a string. -/
def strUp (s : String) : String := String.mk (s.data.map charUp)

/-- Modelled from the spec: `JudgeStatus(raw)` coercion, case-insensitive
per spec 4.C ("Coerces status string (case-insensitive) to the verdict
variant"); an unknown string raises `ValueError`. -/
def judgeStatusOfString (s : String) : Option String :=
  judgeStatusStrings.find? (fun v => strUp v = strUp s)

/-- The fields of the HTTP response that the verdict-coercion claims refer
to (judge.py lines 41-53). -/
structure JudgeResponse where
  status : String
  message : Option String
  deriving DecidableEq

/-- `_convert_legacy_result_to_response` (judge.py lines 25-55), restricted
to the fields above: `result.get('status', 'ERROR')` is fed to
`JudgeStatus(...)`; a non-string or unknown status raises (modelled as
`Except.error` carrying the offending value's description). -/
def convert_legacy_result_to_response (result : JObj) :
    Except String JudgeResponse :=
  let raw : JVal := (JObj.get result kStatus).getD (JVal.str sErrorStatus)
  match raw with
  | JVal.str s =>
    match judgeStatusOfString s with
    | some v =>
      Except.ok
        { status := v
          message :=
            match JObj.get result kMessage with
            | some (JVal.str m) => some m
            | _ => none }
    | none => Except.error s
  | _ => Except.error "non-string status"

/-- The conversion step of `_execute_judge_sync` (judge.py lines 96-105):
the body runs inside `try`, and any exception - including the `ValueError`
from `JudgeStatus(...)` - is answered with a plain `ERROR` response rather
than propagated. -/
def execute_judge_sync_convert (result : JObj) : JudgeResponse :=
  match convert_legacy_result_to_response result with
  | Except.ok resp => resp
  | Except.error e =>
    { status := sErrorStatus
      message := some ("Error occurred during judge evaluation: " ++ e) }

/-- Modelled from the spec: the Submission Validator (spec 4.F: "Reject
empty `user_code`", "Reject `len(user_code) > 50_000`").  The repository
implements request validation in `judge_micro.api.models.judge`, whose file
is not part of src/. -/
def validate_user_code (user_code : String) : Bool :=
  user_code.length ≠ 0 && user_code.length ≤ 50000

/-- Outcome of a submission as seen by the caller: a pre-engine reject, an
engine-level raise, or a verdict together with the engine's container
trace. -/
inductive SubmitOutcome where
  | invalidRequest
  | engineRaise
  | verdict (r : JObj) (tr : List CAction)
  deriving DecidableEq

/-- Modelled from the spec: the submission pipeline of spec 4.D step 1 and
7 - validation happens before the engine is invoked, and a validation
failure surfaces as `InvalidRequest` without reaching the engine. -/
def submit_pipeline (IMAGES : List String) (continueOnTimeout : Bool)
    (language : String) (compileTimeoutVal executionTimeoutVal : ℕ)
    (user_code : String) (env : SingleEnv) (td : TeardownEnv) :
    SubmitOutcome :=
  if ¬ validate_user_code user_code then SubmitOutcome.invalidRequest
  else
    match run_microservice IMAGES continueOnTimeout language compileTimeoutVal
        executionTimeoutVal env td with
    | Except.error _ => SubmitOutcome.engineRaise
    | Except.ok (r, tr) => SubmitOutcome.verdict r tr

theorem JObj.find_map_set {o : JObj} {k : String} (v : JVal)
    (h : List.any o (fun p => p.1 = k) = true) :
    List.find? (fun p => p.1 = k)
      (List.map (fun p => if p.1 = k then (k, v) else p) o) = some (k, v) := by
  induction o with
  | nil => simp at h
  | cons hd tl ih =>
    by_cases hk : hd.1 = k
    · rw [List.map_cons, if_pos hk, List.find?_cons_of_pos _ (by simp)]
    · rw [List.map_cons, if_neg hk, List.find?_cons_of_neg _ (by simp [hk])]
      apply ih
      simpa [hk] using h

theorem JObj.find_append_single {o : JObj} {k : String} (v : JVal)
    (h : List.any o (fun p => p.1 = k) = false) :
    List.find? (fun p => p.1 = k) (o ++ [(k, v)]) = some (k, v) := by
  induction o with
  | nil => simp
  | cons hd tl ih =>
    simp only [List.any_cons, Bool.or_eq_false_iff] at h
    rw [List.cons_append, List.find?_cons_of_neg _ (by simpa using h.1)]
    exact ih h.2

theorem JObj.find_map_set_ne {o : JObj} {k k2 : String} (v : JVal)
    (h : k2 ≠ k) :
    List.find? (fun p => p.1 = k2)
        (List.map (fun p => if p.1 = k then (k, v) else p) o)
      = List.find? (fun p => p.1 = k2) o := by
  induction o with
  | nil => rfl
  | cons hd tl ih =>
    by_cases hk : hd.1 = k
    · rw [List.map_cons, if_pos hk,
        List.find?_cons_of_neg _ (by simp [Ne.symm h]),
        List.find?_cons_of_neg _ (by simp [hk, Ne.symm h]), ih]
    · rw [List.map_cons, if_neg hk]
      by_cases h2 : hd.1 = k2
      · rw [List.find?_cons_of_pos _ (by simp [h2]),
          List.find?_cons_of_pos _ (by simp [h2])]
      · rw [List.find?_cons_of_neg _ (by simp [h2]),
          List.find?_cons_of_neg _ (by simp [h2]), ih]

theorem JObj.find_append_single_ne {o : JObj} {k k2 : String} (v : JVal)
    (h : k2 ≠ k) :
    List.find? (fun p => p.1 = k2) (o ++ [(k, v)])
      = List.find? (fun p => p.1 = k2) o := by
  induction o with
  | nil =>
    rw [List.nil_append, List.find?_cons_of_neg _ (by simp [Ne.symm h])]
  | cons hd tl ih =>
    by_cases h2 : hd.1 = k2
    · rw [List.cons_append, List.find?_cons_of_pos _ (by simp [h2]),
        List.find?_cons_of_pos _ (by simp [h2])]
    · rw [List.cons_append, List.find?_cons_of_neg _ (by simp [h2]),
        List.find?_cons_of_neg _ (by simp [h2]), ih]

/-- `d[k] = v` makes `d.get k` return `v`. -/
theorem JObj.get_set_eq (o : JObj) (k : String) (v : JVal) :
    JObj.get (JObj.set o k v) k = some v := by
  unfold JObj.set JObj.get
  by_cases h : List.any o (fun p => p.1 = k) = true
  · rw [if_pos h, JObj.find_map_set v h]
    rfl
  · rw [if_neg h, JObj.find_append_single v (Bool.eq_false_iff.mpr h)]
    rfl

/-- `d[k] = v` leaves other keys unchanged. -/
theorem JObj.get_set_ne (o : JObj) (k k2 : String) (v : JVal)
    (h : k2 ≠ k) : JObj.get (JObj.set o k v) k2 = JObj.get o k2 := by
  unfold JObj.set JObj.get
  by_cases ha : List.any o (fun p => p.1 = k) = true
  · rw [if_pos ha, JObj.find_map_set_ne v h]
  · rw [if_neg ha, JObj.find_append_single_ne v h]

/-- The returned dictionary of a `run_microservice` call, when the call
returned rather than raised. -/
def runResult (x : Except Unit (JObj × List CAction)) : Option JObj :=
  match x with
  | Except.ok (r, _) => some r
  | Except.error _ => none

/-- The issued container-call trace of a `run_microservice` call. -/
def runTrace (x : Except Unit (JObj × List CAction)) : List CAction :=
  match x with
  | Except.ok (_, tr) => tr
  | Except.error _ => []

/-- The `status` field of the dictionary a `run_microservice` call
returned. -/
def runStatus (x : Except Unit (JObj × List CAction)) : Option JVal :=
  (runResult x).bind (fun r => JObj.get r kStatus)

/-- The returned verdict list of an `optimized_batch_test` call, when the
call returned rather than raised. -/
def batchResults (x : Except Unit (List JObj × List CAction)) :
    Option (List JObj) :=
  match x with
  | Except.ok (rs, _) => some rs
  | Except.error _ => none

/-- The issued container-call trace of an `optimized_batch_test` call. -/
def batchTrace (x : Except Unit (List JObj × List CAction)) : List CAction :=
  match x with
  | Except.ok (_, tr) => tr
  | Except.error _ => []

theorem errCompileTimeout_status (t : ℕ) (a c : ℚ) :
    JObj.get (errCompileTimeout t a c) kStatus
      = some (JVal.str sCompileTimeoutStatus) := rfl

theorem errCompileOutput_status (o : String) (a c : ℚ) :
    JObj.get (errCompileOutput o a c) kStatus
      = some (JVal.str sCompileErrorStatus) := rfl

theorem errCompileOutput_output (o : String) (a c : ℚ) :
    JObj.get (errCompileOutput o a c) kCompileOutput
      = some (JVal.str o) := rfl

theorem errCompileExn_status (e : String) (a c : ℚ) :
    JObj.get (errCompileExn e a c) kStatus
      = some (JVal.str sCompileErrorStatus) := rfl

theorem errTestTimeout_status (t : ℕ) (a b c : ℚ) :
    JObj.get (errTestTimeout t a b c) kStatus
      = some (JVal.str sTimeoutStatus) := rfl

theorem errTimeoutExn_status (e : String) (a b c : ℚ) :
    JObj.get (errTimeoutExn e a b c) kStatus
      = some (JVal.str sTimeoutErrorStatus) := rfl

theorem errCollect_status (e : String) (code : ℕ) (a : ℚ) :
    JObj.get (errCollect e code a) kStatus = some (JVal.str sErrorStatus) := rfl

theorem errCollect_exit_code (e : String) (code : ℕ) (a : ℚ) :
    JObj.get (errCollect e code a) kExitCode
      = some (JVal.num (code : ℚ)) := rfl

theorem errOuter_status (e : String) (a : ℚ) :
    JObj.get (errOuter e a) kStatus = some (JVal.str sErrorStatus) := rfl

theorem batchTimeoutObj_status (t : ℕ) (a b c : ℚ) (i : ℕ) :
    JObj.get (batchTimeoutObj t a b c i) kStatus
      = some (JVal.str sTimeoutStatus) := rfl

theorem batchTimeoutObj_index (t : ℕ) (a b c : ℚ) (i : ℕ) :
    JObj.get (batchTimeoutObj t a b c i) kConfigIndex
      = some (JVal.num (i : ℚ)) := rfl

theorem batchCollectErrObj_status (e : String) (code : ℕ) (a b c : ℚ)
    (i : ℕ) : JObj.get (batchCollectErrObj e code a b c i) kStatus
      = some (JVal.str sErrorStatus) := rfl

theorem batchCollectErrObj_index (e : String) (code : ℕ) (a b c : ℚ)
    (i : ℕ) : JObj.get (batchCollectErrObj e code a b c i) kConfigIndex
      = some (JVal.num (i : ℚ)) := rfl

theorem batchTestErrObj_status (e : String) (a b c : ℚ) (i : ℕ) :
    JObj.get (batchTestErrObj e a b c i) kStatus
      = some (JVal.str sErrorStatus) := rfl

theorem batchTestErrObj_index (e : String) (a b c : ℚ) (i : ℕ) :
    JObj.get (batchTestErrObj e a b c i) kConfigIndex
      = some (JVal.num (i : ℚ)) := rfl

theorem batchOuterErrObj_status (e : String) (a : ℚ) (i : ℕ) :
    JObj.get (batchOuterErrObj e a i) kStatus
      = some (JVal.str sErrorStatus) := rfl

theorem batchOuterErrObj_index (e : String) (a : ℚ) (i : ℕ) :
    JObj.get (batchOuterErrObj e a i) kConfigIndex
      = some (JVal.num (i : ℚ)) := rfl

theorem collectSuccess_get_total (j : JObj) (a b c : ℚ) :
    JObj.get (collectSuccess j a b c) kTotalExecutionTime
      = some (JVal.num a) := by
  unfold collectSuccess
  rw [JObj.get_set_ne _ _ _ _ (by decide), JObj.get_set_ne _ _ _ _ (by decide),
    JObj.get_set_eq]

theorem collectSuccess_get_test (j : JObj) (a b c : ℚ) :
    JObj.get (collectSuccess j a b c) kTestExecutionTime
      = some (JVal.num b) := by
  unfold collectSuccess
  rw [JObj.get_set_ne _ _ _ _ (by decide), JObj.get_set_eq]

theorem collectSuccess_get_compile (j : JObj) (a b c : ℚ) :
    JObj.get (collectSuccess j a b c) kCompileExecutionTime
      = some (JVal.num c) := by
  unfold collectSuccess
  rw [JObj.get_set_eq]

theorem collectSuccess_get_status (j : JObj) (a b c : ℚ) :
    JObj.get (collectSuccess j a b c) kStatus = JObj.get j kStatus := by
  unfold collectSuccess
  rw [JObj.get_set_ne _ _ _ _ (by decide), JObj.get_set_ne _ _ _ _ (by decide),
    JObj.get_set_ne _ _ _ _ (by decide)]

theorem batchCollectSuccess_get_status (j : JObj) (a b c : ℚ) (i : ℕ) :
    JObj.get (batchCollectSuccess j a b c i) kStatus = JObj.get j kStatus := by
  unfold batchCollectSuccess
  rw [JObj.get_set_ne _ _ _ _ (by decide), collectSuccess_get_status]

theorem batchCollectSuccess_get_index (j : JObj) (a b c : ℚ) (i : ℕ) :
    JObj.get (batchCollectSuccess j a b c i) kConfigIndex
      = some (JVal.num (i : ℚ)) := by
  unfold batchCollectSuccess
  rw [JObj.get_set_eq]

theorem runStatus_of_runResult {x : Except Unit (JObj × List CAction)}
    {o : JObj} (h : runResult x = some o) :
    runStatus x = JObj.get o kStatus := by
  simp [runStatus, h]

/-- When the container was created, staging succeeded and the compile step
passed (or the language is Python), `run_microservice` returns the
execute-stage dictionary. -/
theorem runResult_reaches_exec
    (IMAGES : List String) (co : Bool) (language : String)
    (compileT execT : ℕ) (env : SingleEnv) (td : TeardownEnv)
    (hlang : language ∈ IMAGES)
    (hcr : env.createRes = Except.ok ()) (hst : env.startRes = Except.ok ())
    (hput : env.putRes = Except.ok ())
    (hcompile : isPythonLang language = true ∨
      ∃ c : ExecResult, env.compileRes = Except.ok c ∧ c.exit_code = 0 ∧
        ¬ env.compileWall > (compileT : ℚ)) :
    runResult (run_microservice IMAGES co language compileT execT env td)
      = some (runExecStage co execT env).1 := by
  rcases hcompile with hpy | ⟨c, hc, hc0, hcw⟩
  · simp [run_microservice, run_core, hlang, hcr, hst, hput, hpy, runResult]
  · by_cases hpy : isPythonLang language = true
    · simp [run_microservice, run_core, hlang, hcr, hst, hput, hpy, runResult]
    · simp [run_microservice, run_core, hlang, hcr, hst, hput, hpy, hc, hc0,
        hcw, runResult]

/-- Same reachability fact for the trace: the full trace is the staging
prefix, the execute-stage calls, and the teardown. -/
theorem runTrace_reaches_exec
    (IMAGES : List String) (co : Bool) (language : String)
    (compileT execT : ℕ) (env : SingleEnv) (td : TeardownEnv)
    (hlang : language ∈ IMAGES)
    (hcr : env.createRes = Except.ok ()) (hst : env.startRes = Except.ok ())
    (hput : env.putRes = Except.ok ())
    (hcompile : isPythonLang language = true ∨
      ∃ c : ExecResult, env.compileRes = Except.ok c ∧ c.exit_code = 0 ∧
        ¬ env.compileWall > (compileT : ℚ)) :
    ∃ pre : List CAction,
      runTrace (run_microservice IMAGES co language compileT execT env td)
        = pre ++ (runExecStage co execT env).2 ++ teardownTrace td := by
  rcases hcompile with hpy | ⟨c, hc, hc0, hcw⟩
  · refine ⟨[CAction.create, CAction.start, CAction.put], ?_⟩
    simp [run_microservice, run_core, hlang, hcr, hst, hput, hpy, runTrace]
  · by_cases hpy : isPythonLang language = true
    · refine ⟨[CAction.create, CAction.start, CAction.put], ?_⟩
      simp [run_microservice, run_core, hlang, hcr, hst, hput, hpy, runTrace]
    · refine ⟨[CAction.create, CAction.start, CAction.put,
        CAction.exec (compileCmd compileT)], ?_⟩
      simp [run_microservice, run_core, hlang, hcr, hst, hput, hpy, hc, hc0,
        hcw, runTrace]

/-- With the wrapper enabled, exit 124 or an engine wall over the limit is
answered with the `TIMEOUT` dictionary. -/
theorem runExecStage_timeout (E : ℕ) (env : SingleEnv) (r : ExecResult)
    (htest : env.testRes = Except.ok r)
    (hstop : env.stopTestRes = Except.ok ())
    (hto : r.exit_code = 124 ∨ env.testWall > (E : ℚ)) :
    JObj.get (runExecStage false E env).1 kStatus
      = some (JVal.str sTimeoutStatus) := by
  by_cases hw : env.testWall > (E : ℚ)
  · simp [runExecStage, htest, hstop, hw, errTestTimeout_status]
  · rcases hto with h124 | h
    · simp [runExecStage, htest, hstop, hw, h124, errTestTimeout_status]
    · exact absurd h hw

/-- With the wrapper enabled, no timeout signal means the result file is
collected and merged. -/
theorem runExecStage_collect_ok (E : ℕ) (env : SingleEnv) (r : ExecResult)
    (j : JObj) (htest : env.testRes = Except.ok r)
    (hw : ¬ env.testWall > (E : ℚ)) (h124 : r.exit_code ≠ 124)
    (hcol : env.collectRes = Except.ok j) :
    (runExecStage false E env).1
      = collectSuccess j env.collectTotal env.collectTest
          env.collectCompile := by
  simp [runExecStage, htest, hw, h124, hcol]

/-- With the wrapper enabled, no timeout signal and a failed collect is
answered with the `ERROR` dictionary carrying the exec exit code. -/
theorem runExecStage_collect_err (E : ℕ) (env : SingleEnv) (r : ExecResult)
    (e : String) (htest : env.testRes = Except.ok r)
    (hw : ¬ env.testWall > (E : ℚ)) (h124 : r.exit_code ≠ 124)
    (hcol : env.collectRes = Except.error e) :
    (runExecStage false E env).1 = errCollect e r.exit_code env.elapsedTotal := by
  simp [runExecStage, htest, hw, h124, hcol]

/-- C1: with `continue_on_timeout` disabled, the execute step of
`run_microservice` classifies as follows: exec exit 124 or an
engine-observed wall time over `execution_timeout_s` gives the runtime
`TIMEOUT` verdict; any other nonzero exit code still collects
`/app/result.json`, whose contents decide the verdict when present, and a
missing file gives the `ERROR` verdict carrying the exit code; the runtime
timeout status is distinct from the compile timeout status. -/
theorem C1_exec_timeout_classification
    (IMAGES : List String) (language : String)
    (compileT execT : ℕ) (env : SingleEnv) (td : TeardownEnv)
    (r : ExecResult)
    (hlang : language ∈ IMAGES)
    (hcr : env.createRes = Except.ok ()) (hst : env.startRes = Except.ok ())
    (hput : env.putRes = Except.ok ())
    (hcompile : isPythonLang language = true ∨
      ∃ c : ExecResult, env.compileRes = Except.ok c ∧ c.exit_code = 0 ∧
        ¬ env.compileWall > (compileT : ℚ))
    (htest : env.testRes = Except.ok r)
    (hstop : env.stopTestRes = Except.ok ()) :
    ((r.exit_code = 124 ∨ env.testWall > (execT : ℚ)) →
      runStatus (run_microservice IMAGES false language compileT execT env td)
        = some (JVal.str sTimeoutStatus)) ∧
    (r.exit_code ≠ 124 → r.exit_code ≠ 0 → ¬ env.testWall > (execT : ℚ) →
      (∀ j, env.collectRes = Except.ok j →
        runResult (run_microservice IMAGES false language compileT execT env td)
          = some (collectSuccess j env.collectTotal env.collectTest
              env.collectCompile) ∧
        runStatus (run_microservice IMAGES false language compileT execT env td)
          = JObj.get j kStatus) ∧
      (∀ e, env.collectRes = Except.error e →
        runStatus (run_microservice IMAGES false language compileT execT env td)
          = some (JVal.str sErrorStatus) ∧
        (runResult (run_microservice IMAGES false language compileT execT env
            td)).bind (fun o => JObj.get o kExitCode)
          = some (JVal.num (r.exit_code : ℚ)))) ∧
    sTimeoutStatus ≠ sCompileTimeoutStatus := by
  have hres := runResult_reaches_exec IMAGES false language compileT execT env
    td hlang hcr hst hput hcompile
  refine ⟨?_, ?_, by decide⟩
  · intro hto
    rw [runStatus_of_runResult hres,
      runExecStage_timeout execT env r htest hstop hto]
  · intro h124 h0 hw
    constructor
    · intro j hcol
      have hs := runExecStage_collect_ok execT env r j htest hw h124 hcol
      constructor
      · rw [hres, hs]
      · rw [runStatus_of_runResult hres, hs, collectSuccess_get_status]
    · intro e hcol
      have hs := runExecStage_collect_err execT env r e htest hw h124 hcol
      constructor
      · rw [runStatus_of_runResult hres, hs, errCollect_status]
      · rw [hres]
        simp [hs, errCollect_exit_code]

/-- A sample runner result file. -/
def sampleResultJson : JObj := [(kStatus, JVal.str sSuccessStatus)]

/-- A concrete single-run environment: everything succeeds, the test exec
returns exit code 124. -/
def sampleEnvTimeout : SingleEnv :=
  ⟨Except.ok (), Except.ok (), Except.ok (),
   Except.ok ⟨0, []⟩, 1, Except.ok (),
   Except.ok ⟨124, []⟩, 1, Except.ok (),
   Except.ok sampleResultJson, 3, 1, 1, 3, 1⟩

/-- C1, instantiated: a test exec exiting 124 under the default limits is
classified as a runtime timeout. -/
theorem C1_witness :
    runStatus (run_microservice ["c"] false "c" 30 10 sampleEnvTimeout
        ⟨Except.ok (), Except.ok ()⟩)
      = some (JVal.str sTimeoutStatus) :=
  (C1_exec_timeout_classification ["c"] "c" 30 10 sampleEnvTimeout
      ⟨Except.ok (), Except.ok ()⟩ ⟨124, []⟩ (by decide) rfl rfl rfl
      (Or.inr ⟨⟨0, []⟩, rfl, rfl, by decide⟩) rfl rfl).1 (Or.inl rfl)

/-- With the wrapper enabled, the execute stage always issues the wrapped
test command. -/
theorem runExecStage_has_exec_false (E : ℕ) (env : SingleEnv) :
    CAction.exec (testCmdWrapped E) ∈ (runExecStage false E env).2 := by
  unfold runExecStage
  cases htest : env.testRes <;> simp [htest]
  split
  · split <;> simp
  · split
    · simp
    · split <;> simp

/-- C2 (amended): for a compiled language, the compile step of
`run_microservice` classifies as follows: exit 0 with the wall inside the
limit proceeds to the execute step; exit 124 or an engine-observed compile
wall over `compile_timeout_s` gives `COMPILE_TIMEOUT`; any other nonzero
exit gives `COMPILE_ERROR` whose compile_output is the exec output decoded
as UTF-8 with errors='ignore' (the claim said 'replace'); the compile
timeout status is distinct from the runtime timeout status. -/
theorem C2_compile_outcome_classification
    (IMAGES : List String) (language : String)
    (compileT execT : ℕ) (env : SingleEnv) (td : TeardownEnv)
    (c : ExecResult)
    (hlang : language ∈ IMAGES) (hnpy : isPythonLang language = false)
    (hcr : env.createRes = Except.ok ()) (hst : env.startRes = Except.ok ())
    (hput : env.putRes = Except.ok ())
    (hc : env.compileRes = Except.ok c)
    (hstopc : env.stopCompileRes = Except.ok ()) :
    ((c.exit_code = 124 ∨ env.compileWall > (compileT : ℚ)) →
      runStatus (run_microservice IMAGES false language compileT execT env td)
        = some (JVal.str sCompileTimeoutStatus)) ∧
    (c.exit_code = 0 → ¬ env.compileWall > (compileT : ℚ) →
      CAction.exec (testCmdWrapped execT) ∈
        runTrace (run_microservice IMAGES false language compileT execT env
          td)) ∧
    (c.exit_code ≠ 0 → c.exit_code ≠ 124 →
        ¬ env.compileWall > (compileT : ℚ) →
      runResult (run_microservice IMAGES false language compileT execT env td)
        = some (errCompileOutput (utf8DecodeIgnore c.output) env.elapsedTotal
            env.compileWall) ∧
      runStatus (run_microservice IMAGES false language compileT execT env td)
        = some (JVal.str sCompileErrorStatus)) ∧
    sCompileTimeoutStatus ≠ sTimeoutStatus := by
  refine ⟨?_, ?_, ?_, by decide⟩
  · intro hto
    by_cases hw : env.compileWall > (compileT : ℚ)
    · simp [run_microservice, run_core, hlang, hcr, hst, hput, hnpy, hc, hw,
        hstopc, runStatus, runResult, errCompileTimeout_status]
    · rcases hto with h124 | h
      · simp [run_microservice, run_core, hlang, hcr, hst, hput, hnpy, hc,
          hw, h124, runStatus, runResult, errCompileTimeout_status]
      · exact absurd h hw
  · intro hc0 hw
    obtain ⟨pre, htr⟩ := runTrace_reaches_exec IMAGES false language compileT
      execT env td hlang hcr hst hput (Or.inr ⟨c, hc, hc0, hw⟩)
    rw [htr]
    exact List.mem_append_left _
      (List.mem_append_right _ (runExecStage_has_exec_false execT env))
  · intro hc0 h124 hw
    constructor
    · simp [run_microservice, run_core, hlang, hcr, hst, hput, hnpy, hc, hw,
        h124, hc0, runResult]
    · simp [run_microservice, run_core, hlang, hcr, hst, hput, hnpy, hc, hw,
        h124, hc0, runStatus, runResult, errCompileOutput_status]

/-- A teardown whose calls succeed. -/
def tdOk : TeardownEnv := ⟨Except.ok (), Except.ok ()⟩

/-- A concrete single-run environment whose compile exec exits 1 with output
bytes `A 0xFF B` (0xFF is not valid UTF-8). -/
def compileFailEnv : SingleEnv :=
  ⟨Except.ok (), Except.ok (), Except.ok (),
   Except.ok ⟨1, [65, 255, 66]⟩, 1, Except.ok (),
   Except.ok ⟨0, []⟩, 1, Except.ok (),
   Except.ok sampleResultJson, 3, 1, 1, 3, 1⟩

/-- C2 counterexample: the claim says the `COMPILE_ERROR` verdict's
compile_output is the exec output decoded as UTF-8 with 'replace' on
errors; the code decodes with errors='ignore' (micro.py line 146).  On
output bytes `[65, 255, 66]` the returned field is the 'ignore' decoding
"AB", which differs from the 'replace' decoding. -/
theorem C2_counterexample :
    (runResult (run_microservice ["c"] false "c" 30 10 compileFailEnv
        tdOk)).bind (fun o => JObj.get o kCompileOutput)
      ≠ some (JVal.str (utf8DecodeReplace [65, 255, 66])) ∧
    (runResult (run_microservice ["c"] false "c" 30 10 compileFailEnv
        tdOk)).bind (fun o => JObj.get o kCompileOutput)
      = some (JVal.str (utf8DecodeIgnore [65, 255, 66])) := by
  constructor
  · decide
  · decide

/-- C2, instantiated: the compile exec exiting 1 is classified as a compile
error with the 'ignore'-decoded output. -/
theorem C2_witness :
    runStatus (run_microservice ["c"] false "c" 30 10 compileFailEnv tdOk)
      = some (JVal.str sCompileErrorStatus) :=
  ((C2_compile_outcome_classification ["c"] "c" 30 10 compileFailEnv tdOk
      ⟨1, [65, 255, 66]⟩ (by decide) rfl rfl rfl rfl rfl rfl).2.2.1
    (by decide) (by decide) (by decide)).2

/-- Once creation succeeded, every exit path of the `run_microservice` body
reports the container as created. -/
theorem run_core_created (IMAGES : List String) (co : Bool)
    (language : String) (T E : ℕ) (env : SingleEnv)
    (hlang : language ∈ IMAGES) (hcr : env.createRes = Except.ok ()) :
    ∃ r tr, run_core IMAGES co language T E env = Except.ok (r, tr, true) := by
  unfold run_core
  rw [if_neg (by simp [hlang]), hcr]
  repeat' split
  all_goals first
    | exact ⟨_, _, rfl⟩
    | simp_all

/-- Once creation succeeded, every exit path of the `optimized_batch_test`
body reports the container as created. -/
theorem batch_core_created (IMAGES : List String) (co : Bool)
    (language : String) (T E : ℕ) (configs : List JObj) (benv : BatchEnv)
    (hlang : language ∈ IMAGES) (hcr : benv.createRes = Except.ok ())
    (hconf : configs ≠ []) :
    ∃ rs tr, batch_core IMAGES co language T E configs benv
      = Except.ok (rs, tr, true) := by
  unfold batch_core
  rw [if_neg (by simp [hlang]), if_neg (by simp [hconf]), hcr]
  repeat' split
  all_goals first
    | exact ⟨_, _, rfl⟩
    | simp_all

/-- The returned dictionary never depends on the teardown outcomes. -/
theorem runResult_teardown_free (IMAGES : List String) (co : Bool)
    (language : String) (T E : ℕ) (env : SingleEnv) (td td2 : TeardownEnv) :
    runResult (run_microservice IMAGES co language T E env td)
      = runResult (run_microservice IMAGES co language T E env td2) := by
  cases h : run_core IMAGES co language T E env with
  | error e => simp [run_microservice, runResult, h]
  | ok x =>
    obtain ⟨r, tr, b⟩ := x
    simp [run_microservice, runResult, h]

/-- The returned verdict list never depends on the teardown outcomes. -/
theorem batchResults_teardown_free (IMAGES : List String) (co : Bool)
    (language : String) (T E : ℕ) (configs : List JObj) (benv : BatchEnv)
    (td td2 : TeardownEnv) :
    batchResults (optimized_batch_test IMAGES co language T E configs benv td)
      = batchResults (optimized_batch_test IMAGES co language T E configs benv
          td2) := by
  cases h : batch_core IMAGES co language T E configs benv with
  | error e => simp [optimized_batch_test, batchResults, h]
  | ok x =>
    obtain ⟨rs, tr, b⟩ := x
    simp [optimized_batch_test, batchResults, h]

/-- C3: in both `run_microservice` and `optimized_batch_test`, whenever a
container was created the call trace ends with the teardown attempt on
every exit path, a successful teardown stops then removes the container,
and the teardown outcome never changes the returned result. -/
theorem C3_teardown_unconditional
    (IMAGES : List String) (co : Bool) (language : String) (T E : ℕ)
    (env : SingleEnv) (benv : BatchEnv) (configs : List JObj)
    (td td2 : TeardownEnv)
    (hlang : language ∈ IMAGES)
    (hcr : env.createRes = Except.ok ())
    (hbcr : benv.createRes = Except.ok ())
    (hconf : configs ≠ []) :
    (runResult (run_microservice IMAGES co language T E env td)
      = runResult (run_microservice IMAGES co language T E env td2)) ∧
    (∃ pre, runTrace (run_microservice IMAGES co language T E env td)
      = pre ++ teardownTrace td) ∧
    (batchResults (optimized_batch_test IMAGES co language T E configs benv
        td)
      = batchResults (optimized_batch_test IMAGES co language T E configs benv
          td2)) ∧
    (∃ pre, batchTrace (optimized_batch_test IMAGES co language T E configs
        benv td)
      = pre ++ teardownTrace td) ∧
    teardownTrace tdOk = [CAction.stop, CAction.remove] := by
  refine ⟨runResult_teardown_free IMAGES co language T E env td td2, ?_,
    batchResults_teardown_free IMAGES co language T E configs benv td td2,
    ?_, rfl⟩
  · obtain ⟨r, tr, hco⟩ := run_core_created IMAGES co language T E env hlang
      hcr
    exact ⟨tr, by simp [run_microservice, runTrace, hco]⟩
  · obtain ⟨rs, tr, hco⟩ := batch_core_created IMAGES co language T E configs
      benv hlang hbcr hconf
    exact ⟨tr, by simp [optimized_batch_test, batchTrace, hco]⟩

/-- A teardown whose stop call raises (the raise is swallowed). -/
def tdFail : TeardownEnv := ⟨Except.error "stop failed", Except.ok ()⟩

/-- A concrete per-iteration environment: everything succeeds. -/
def sampleTestEnv : TestEnv :=
  ⟨Except.ok (), Except.ok ⟨0, []⟩, 1, Except.ok sampleResultJson, 1, 3, 3, 1⟩

/-- A concrete batch environment: everything succeeds. -/
def sampleBatchEnv : BatchEnv :=
  ⟨Except.ok (), Except.ok (), Except.ok (), Except.ok ⟨0, []⟩, 1,
   fun _ => sampleTestEnv, 3, 1⟩

/-- C3, instantiated: a failing stop call changes neither result, and both
traces still end with the teardown attempt. -/
theorem C3_witness :
    (runResult (run_microservice ["c"] false "c" 30 10 sampleEnvTimeout tdOk)
      = runResult (run_microservice ["c"] false "c" 30 10 sampleEnvTimeout
          tdFail)) ∧
    (∃ pre, runTrace (run_microservice ["c"] false "c" 30 10 sampleEnvTimeout
        tdOk) = pre ++ teardownTrace tdOk) ∧
    (batchResults (optimized_batch_test ["c"] false "c" 30 10 [[]]
        sampleBatchEnv tdOk)
      = batchResults (optimized_batch_test ["c"] false "c" 30 10 [[]]
          sampleBatchEnv tdFail)) := by
  have h := C3_teardown_unconditional ["c"] false "c" 30 10 sampleEnvTimeout
    sampleBatchEnv [[]] tdOk tdFail (by decide) rfl rfl (by decide)
  exact ⟨h.1, h.2.1, h.2.2.1⟩
theorem JObj.get_append_single (o : JObj) (k : String) (v : JVal)
    (h : JObj.get o k = none) : JObj.get (o ++ [(k, v)]) k = some v := by
  induction o with
  | nil => simp [JObj.get]
  | cons hd tl ih =>
    unfold JObj.get at h ⊢
    by_cases h2 : hd.1 = k
    · rw [List.find?_cons_of_pos _ (by simp [h2])] at h
      simp at h
    · rw [List.cons_append, List.find?_cons_of_neg _ (by simp [h2])]
      rw [List.find?_cons_of_neg _ (by simp [h2])] at h
      exact ih h

theorem errCompileTimeout_index_none (t : ℕ) (a c : ℚ) :
    JObj.get (errCompileTimeout t a c) kConfigIndex = none := rfl

theorem errCompileOutput_index_none (o : String) (a c : ℚ) :
    JObj.get (errCompileOutput o a c) kConfigIndex = none := rfl

theorem errCompileExn_index_none (e : String) (a c : ℚ) :
    JObj.get (errCompileExn e a c) kConfigIndex = none := rfl

theorem batchStep_index (co : Bool) (E : ℕ) (ce : ℚ) (i : ℕ) (te : TestEnv) :
    JObj.get (batchStep co E ce i te).1 kConfigIndex
      = some (JVal.num (i : ℚ)) := by
  unfold batchStep
  repeat' split
  all_goals
    simp [batchTestErrObj_index, batchTimeoutObj_index,
      batchCollectErrObj_index, batchCollectSuccess_get_index]

theorem fanWithIndex_length (base : JObj) (n : ℕ) :
    (fanWithIndex base n).length = n := by
  unfold fanWithIndex
  rw [List.length_map, List.length_range]

theorem fan_map_index (base : JObj)
    (hbase : JObj.get base kConfigIndex = none) (n : ℕ) :
    (fanWithIndex base n).map (fun o => JObj.get o kConfigIndex)
      = (List.range n).map (fun i : ℕ => some (JVal.num (i : ℚ))) := by
  unfold fanWithIndex
  rw [List.map_map]
  exact List.map_congr_left
    (fun i _ => JObj.get_append_single base kConfigIndex _ hbase)

theorem outer_map_index (e : String) (t : ℚ) (n : ℕ) :
    ((List.range n).map (fun i => batchOuterErrObj e t i)).map
        (fun o => JObj.get o kConfigIndex)
      = (List.range n).map (fun i : ℕ => some (JVal.num (i : ℚ))) := by
  rw [List.map_map]
  exact List.map_congr_left (fun i _ => batchOuterErrObj_index e t i)

theorem batchLoop_length (co : Bool) (E : ℕ) (ce : ℚ) (n : ℕ)
    (tests : ℕ → TestEnv) : (batchLoop co E ce n tests).1.length = n := by
  unfold batchLoop
  rw [List.length_map, List.length_range]

theorem batchLoop_map_index (co : Bool) (E : ℕ) (ce : ℚ) (n : ℕ)
    (tests : ℕ → TestEnv) :
    (batchLoop co E ce n tests).1.map (fun o => JObj.get o kConfigIndex)
      = (List.range n).map (fun i : ℕ => some (JVal.num (i : ℚ))) := by
  unfold batchLoop
  rw [List.map_map]
  exact List.map_congr_left (fun i _ => batchStep_index co E ce i (tests i))

theorem batch_core_positions
    (IMAGES : List String) (co : Bool) (language : String) (T E : ℕ)
    (configs : List JObj) (benv : BatchEnv)
    (hlang : language ∈ IMAGES) :
    ∃ rs tr b, batch_core IMAGES co language T E configs benv
        = Except.ok (rs, tr, b) ∧
      rs.length = configs.length ∧
      rs.map (fun o => JObj.get o kConfigIndex)
        = (List.range configs.length).map
            (fun i : ℕ => some (JVal.num (i : ℚ))) := by
  unfold batch_core
  rw [if_neg (by simp [hlang])]
  by_cases he : configs.isEmpty
  · rw [if_pos he]
    rw [List.isEmpty_iff.mp he]
    exact ⟨[], [], false, rfl, rfl, rfl⟩
  · rw [if_neg he]
    repeat' split
    all_goals refine ⟨_, _, _, rfl, ?_, ?_⟩
    all_goals first
      | exact fanWithIndex_length _ _
      | exact batchLoop_length _ _ _ _ _
      | rw [List.length_map, List.length_range]
      | exact fan_map_index _ (errCompileExn_index_none _ _ _) _
      | exact fan_map_index _ (errCompileTimeout_index_none _ _ _) _
      | exact fan_map_index _ (errCompileOutput_index_none _ _ _) _
      | exact batchLoop_map_index _ _ _ _ _
      | exact outer_map_index _ _ _

/-- Lift of `batch_core_positions` to `optimized_batch_test`. -/
theorem batch_positions
    (IMAGES : List String) (co : Bool) (language : String) (T E : ℕ)
    (configs : List JObj) (benv : BatchEnv) (td : TeardownEnv)
    (hlang : language ∈ IMAGES) :
    ∃ rs tr, optimized_batch_test IMAGES co language T E configs benv td
        = Except.ok (rs, tr) ∧
      rs.length = configs.length ∧
      rs.map (fun o => JObj.get o kConfigIndex)
        = (List.range configs.length).map
            (fun i : ℕ => some (JVal.num (i : ℚ))) := by
  obtain ⟨rs, tr, b, hc, hlen, hmap⟩ :=
    batch_core_positions IMAGES co language T E configs benv hlang
  refine ⟨rs, tr ++ (if b then teardownTrace td else []), ?_, hlen, hmap⟩
  simp [optimized_batch_test, hc]

/-- C4: every `optimized_batch_test` call returns one verdict per input
configuration, in order, the i-th tagged with `config_index = i`; a
per-test timeout is recorded as the `TIMEOUT` variant for that index and a
collection failure as the `ERROR` variant, and the loop then moves on (the
output still has an entry for every index). -/
theorem C4_batch_positions
    (IMAGES : List String) (co : Bool) (language : String) (T E : ℕ)
    (configs : List JObj) (benv : BatchEnv) (td : TeardownEnv)
    (hlang : language ∈ IMAGES) (hconf : configs ≠ []) :
    (∃ rs tr, optimized_batch_test IMAGES co language T E configs benv td
        = Except.ok (rs, tr) ∧
      rs.length = configs.length ∧
      rs.map (fun o => JObj.get o kConfigIndex)
        = (List.range configs.length).map
            (fun i : ℕ => some (JVal.num (i : ℚ)))) ∧
    (∀ (ce : ℚ) (i : ℕ) (te : TestEnv) (r : ExecResult),
      te.putConfigRes = Except.ok () → te.execRes = Except.ok r →
      te.wall > (E : ℚ) →
      JObj.get (batchStep false E ce i te).1 kStatus
        = some (JVal.str sTimeoutStatus)) ∧
    (∀ (ce : ℚ) (i : ℕ) (te : TestEnv) (r : ExecResult) (e : String),
      te.putConfigRes = Except.ok () → te.execRes = Except.ok r →
      ¬ te.wall > (E : ℚ) → r.exit_code ≠ 124 →
      te.collectRes = Except.error e →
      JObj.get (batchStep false E ce i te).1 kStatus
        = some (JVal.str sErrorStatus)) := by
  refine ⟨batch_positions IMAGES co language T E configs benv td hlang,
    ?_, ?_⟩
  · intro ce i te r hputc hexec hw
    simp [batchStep, hputc, hexec, hw, batchTimeoutObj_status]
  · intro ce i te r e hputc hexec hw h124 hcol
    simp [batchStep, hputc, hexec, hw, h124, hcol, batchCollectErrObj_status]

/-- C4, instantiated on a two-configuration batch. -/
theorem C4_witness :
    ∃ rs tr, optimized_batch_test ["c"] false "c" 30 10 [[], []]
        sampleBatchEnv tdOk = Except.ok (rs, tr) ∧
      rs.length = 2 ∧
      rs.map (fun o => JObj.get o kConfigIndex)
        = (List.range 2).map (fun i : ℕ => some (JVal.num (i : ℚ))) := by
  have h := (C4_batch_positions ["c"] false "c" 30 10 [[], []] sampleBatchEnv
    tdOk (by decide) (by decide)).1
  simpa using h

theorem JObj.get_append_single_other (o : JObj) (k k2 : String) (v : JVal)
    (h : k2 ≠ k) : JObj.get (o ++ [(k, v)]) k2 = JObj.get o k2 := by
  unfold JObj.get
  rw [JObj.find_append_single_ne v h]

theorem fan_map_status (base : JObj) (v : Option JVal) (n : ℕ)
    (hb : JObj.get base kStatus = v) :
    (fanWithIndex base n).map (fun o => JObj.get o kStatus)
      = List.replicate n v := by
  unfold fanWithIndex
  rw [List.map_map]
  trans (List.range n).map (fun _ : ℕ => v)
  · refine List.map_congr_left (fun i _ => ?_)
    simpa using
      (JObj.get_append_single_other base kConfigIndex kStatus
        (JVal.num (i : ℚ)) (by decide)).trans hb
  · rw [List.map_const', List.length_range]

theorem teardownTrace_no_exec (td : TeardownEnv) (cmd : String) :
    CAction.exec cmd ∉ teardownTrace td := by
  unfold teardownTrace
  split <;> simp

/-- C5: in `optimized_batch_test` for a compiled language, a compile
failure or timeout yields one verdict per input configuration, all with the
same status (`COMPILE_ERROR` or `COMPILE_TIMEOUT`), each tagged with its
`config_index`, and no test configuration is executed (every exec issued is
the compile command). -/
theorem C5_compile_failure_fanout
    (IMAGES : List String) (co : Bool) (language : String) (T E : ℕ)
    (configs : List JObj) (benv : BatchEnv) (td : TeardownEnv)
    (hlang : language ∈ IMAGES) (hnpy : isPythonLang language = false)
    (hcr : benv.createRes = Except.ok ())
    (hst : benv.startRes = Except.ok ())
    (hput : benv.putUserRes = Except.ok ())
    (hfail : (∃ e, benv.compileRes = Except.error e) ∨
      (∃ c, benv.compileRes = Except.ok c ∧
        (c.exit_code ≠ 0 ∨ benv.compileWall > (T : ℚ)))) :
    ∃ rs tr s, optimized_batch_test IMAGES co language T E configs benv td
        = Except.ok (rs, tr) ∧
      (s = sCompileErrorStatus ∨ s = sCompileTimeoutStatus) ∧
      rs.length = configs.length ∧
      rs.map (fun o => JObj.get o kStatus)
        = List.replicate configs.length (some (JVal.str s)) ∧
      rs.map (fun o => JObj.get o kConfigIndex)
        = (List.range configs.length).map
            (fun i : ℕ => some (JVal.num (i : ℚ))) ∧
      ∀ cmd, CAction.exec cmd ∈ tr → cmd = compileCmd T := by
  by_cases he : configs.isEmpty
  · refine ⟨[], [], sCompileErrorStatus, ?_, Or.inl rfl, ?_, ?_, ?_, ?_⟩
    · simp [optimized_batch_test, batch_core, hlang, he]
    · simp [List.isEmpty_iff.mp he]
    · simp [List.isEmpty_iff.mp he]
    · simp [List.isEmpty_iff.mp he]
    · intro cmd hm
      simp at hm
  · have hpre : ∀ (base : JObj),
        (∀ cmd, CAction.exec cmd ∈
          ([CAction.create, CAction.start, CAction.put,
            CAction.exec (compileCmd T)] ++ teardownTrace td) →
          cmd = compileCmd T) := by
      intro base cmd hm
      rcases List.mem_append.mp hm with h1 | h2
      · simpa using h1
      · exact absurd h2 (teardownTrace_no_exec td cmd)
    rcases hfail with ⟨e, hcomp⟩ | ⟨c, hcomp, hbad⟩
    · refine ⟨fanWithIndex (errCompileExn e benv.elapsedTotal
          benv.compileElapsedRet) configs.length,
        [CAction.create, CAction.start, CAction.put,
          CAction.exec (compileCmd T)] ++ teardownTrace td,
        sCompileErrorStatus, ?_, Or.inl rfl,
        fanWithIndex_length _ _,
        fan_map_status _ _ _ (errCompileExn_status _ _ _),
        fan_map_index _ (errCompileExn_index_none _ _ _) _, hpre []⟩
      simp [optimized_batch_test, batch_core, hlang, he, hcr, hst, hput,
        hnpy, hcomp]
    · by_cases hw : benv.compileWall > (T : ℚ)
      · refine ⟨fanWithIndex (errCompileTimeout T benv.elapsedTotal
            benv.compileWall) configs.length,
          [CAction.create, CAction.start, CAction.put,
            CAction.exec (compileCmd T)] ++ teardownTrace td,
          sCompileTimeoutStatus, ?_, Or.inr rfl,
          fanWithIndex_length _ _,
          fan_map_status _ _ _ (errCompileTimeout_status _ _ _),
          fan_map_index _ (errCompileTimeout_index_none _ _ _) _, hpre []⟩
        simp [optimized_batch_test, batch_core, hlang, he, hcr, hst, hput,
          hnpy, hcomp, hw]
      · have hc0 : c.exit_code ≠ 0 := by
          rcases hbad with h | h
          · exact h
          · exact absurd h hw
        by_cases h124 : c.exit_code = 124
        · refine ⟨fanWithIndex (errCompileTimeout T benv.elapsedTotal
              benv.compileWall) configs.length,
            [CAction.create, CAction.start, CAction.put,
              CAction.exec (compileCmd T)] ++ teardownTrace td,
            sCompileTimeoutStatus, ?_, Or.inr rfl,
            fanWithIndex_length _ _,
            fan_map_status _ _ _ (errCompileTimeout_status _ _ _),
            fan_map_index _ (errCompileTimeout_index_none _ _ _) _, hpre []⟩
          simp [optimized_batch_test, batch_core, hlang, he, hcr, hst, hput,
            hnpy, hcomp, hw, hc0, h124]
        · refine ⟨fanWithIndex (errCompileOutput
              (utf8DecodeIgnore c.output) benv.elapsedTotal benv.compileWall)
              configs.length,
            [CAction.create, CAction.start, CAction.put,
              CAction.exec (compileCmd T)] ++ teardownTrace td,
            sCompileErrorStatus, ?_, Or.inl rfl,
            fanWithIndex_length _ _,
            fan_map_status _ _ _ (errCompileOutput_status _ _ _),
            fan_map_index _ (errCompileOutput_index_none _ _ _) _, hpre []⟩
          simp [optimized_batch_test, batch_core, hlang, he, hcr, hst, hput,
            hnpy, hcomp, hw, hc0, h124]

/-- A concrete batch environment whose compile exec exits 1. -/
def sampleBatchCompileFail : BatchEnv :=
  ⟨Except.ok (), Except.ok (), Except.ok (), Except.ok ⟨1, [65]⟩, 1,
   fun _ => sampleTestEnv, 3, 1⟩

/-- C5, instantiated on a two-configuration batch whose compilation fails. -/
theorem C5_witness :
    ∃ rs tr s, optimized_batch_test ["c"] false "c" 30 10 [[], []]
        sampleBatchCompileFail tdOk = Except.ok (rs, tr) ∧
      (s = sCompileErrorStatus ∨ s = sCompileTimeoutStatus) ∧
      rs.length = 2 ∧
      rs.map (fun o => JObj.get o kStatus)
        = List.replicate 2 (some (JVal.str s)) ∧
      rs.map (fun o => JObj.get o kConfigIndex)
        = (List.range 2).map (fun i : ℕ => some (JVal.num (i : ℚ))) ∧
      ∀ cmd, CAction.exec cmd ∈ tr → cmd = compileCmd 30 := by
  have h := C5_compile_failure_fanout ["c"] false "c" 30 10 [[], []]
    sampleBatchCompileFail tdOk (by decide) (by decide) rfl rfl rfl
    (Or.inr ⟨⟨1, [65]⟩, rfl, Or.inl (by decide)⟩)
  simpa using h

/-- Is this container call an exec? -/
def isExecAction : CAction → Bool
  | CAction.exec _ => true
  | _ => false

def timeoutWord : String := "timeout"

/-- Does `hay` start with `needle`? -/
def listStartsWith : List Char → List Char → Bool
  | [], _ => true
  | _ :: _, [] => false
  | a :: as, b :: bs => a = b && listStartsWith as bs

/-- Does `needle` occur anywhere inside `hay`? -/
def listHasSub (needle : List Char) : List Char → Bool
  | [] => listStartsWith needle []
  | b :: rest => listStartsWith needle (b :: rest) || listHasSub needle rest

/-- C6 (amended): with `continue_on_timeout` enabled, both engines omit the
in-container `timeout` wrapper - the only test command issued is the plain
`make test` line, which never invokes the `timeout` utility - and no
timeout classification is performed in the execute step: whatever the exec
exit code and however large the engine-observed wall, a collected runner
result decides the status, the wall being merely recorded in the timing
fields. -/
theorem C6_continue_on_timeout
    (E : ℕ) (env : SingleEnv) (ce : ℚ) (i : ℕ) (te : TestEnv) :
    ((runExecStage true E env).2.filter isExecAction
      = [CAction.exec testCmdPlain]) ∧
    (te.putConfigRes = Except.ok () →
      (batchStep true E ce i te).2.filter isExecAction
        = [CAction.exec testCmdPlain]) ∧
    (listHasSub timeoutWord.data testCmdPlain.data = false) ∧
    (∀ r j, env.testRes = Except.ok r → env.collectRes = Except.ok j →
      (runExecStage true E env).1
        = collectSuccess j env.collectTotal env.collectTest
            env.collectCompile ∧
      JObj.get (runExecStage true E env).1 kStatus = JObj.get j kStatus ∧
      JObj.get (runExecStage true E env).1 kTestExecutionTime
        = some (JVal.num env.collectTest)) := by
  refine ⟨?_, ?_, by decide, ?_⟩
  · unfold runExecStage
    cases htest : env.testRes <;> simp [htest, isExecAction]
    cases hcol : env.collectRes <;> simp [hcol, isExecAction]
  · intro hputc
    unfold batchStep
    cases hexec : te.execRes <;> simp [hputc, hexec, isExecAction]
    cases hcol : te.collectRes <;> simp [hcol, isExecAction]
  · intro r j htest hcol
    refine ⟨?_, ?_, ?_⟩
    · simp [runExecStage, htest, hcol]
    · simp [runExecStage, htest, hcol, collectSuccess_get_status]
    · simp [runExecStage, htest, hcol, collectSuccess_get_test]

/-- A concrete environment for the continue-on-timeout mode: the test exec
exits 124 after a wall of 1000 seconds, far over any limit, and the runner
reports SUCCESS. -/
def continueEnv : SingleEnv :=
  ⟨Except.ok (), Except.ok (), Except.ok (),
   Except.ok ⟨0, []⟩, 1, Except.ok (),
   Except.ok ⟨124, []⟩, 1000, Except.ok (),
   Except.ok sampleResultJson, 1000, 1000, 1, 1000, 1⟩

/-- C6 counterexample: the claim says timeout classification is performed
using the engine-observed wall time.  With `continue_on_timeout` enabled,
a run whose test exec exits 124 with a wall of 1000 s against a 2 s limit
is still answered with the runner's own SUCCESS status: no timeout
classification happens at all. -/
theorem C6_counterexample :
    runStatus (run_microservice ["c"] true "c" 30 2 continueEnv tdOk)
      = some (JVal.str sSuccessStatus) ∧
    continueEnv.testWall > ((2 : ℕ) : ℚ) ∧
    sSuccessStatus ≠ sTimeoutStatus := by
  refine ⟨by decide, by decide, by decide⟩

/-- C6, instantiated: on the timed-out exec above (exit 124, wall 1000),
the execute stage issued only the plain command and returned the collected
runner result. -/
theorem C6_witness :
    ((runExecStage true 2 continueEnv).2.filter isExecAction
      = [CAction.exec testCmdPlain]) ∧
    (runExecStage true 2 continueEnv).1
      = collectSuccess sampleResultJson continueEnv.collectTotal
          continueEnv.collectTest continueEnv.collectCompile :=
  ⟨(C6_continue_on_timeout 2 continueEnv 0 0 sampleTestEnv).1,
   ((C6_continue_on_timeout 2 continueEnv 0 0 sampleTestEnv).2.2.2 ⟨124, []⟩
      sampleResultJson rfl rfl).1⟩

/-- C10: for a supported language, an empty configs list makes
`optimized_batch_test` return the empty list at once: the trace is empty,
so no container is created, started or torn down. -/
theorem C10_empty_batch
    (IMAGES : List String) (co : Bool) (language : String) (T E : ℕ)
    (benv : BatchEnv) (td : TeardownEnv)
    (hlang : language ∈ IMAGES) :
    optimized_batch_test IMAGES co language T E [] benv td
      = Except.ok ([], []) := by
  simp [optimized_batch_test, batch_core, hlang]

/-- C10, instantiated. -/
theorem C10_witness :
    optimized_batch_test ["c"] false "c" 30 10 [] sampleBatchEnv tdOk
      = Except.ok ([], []) :=
  C10_empty_batch ["c"] false "c" 30 10 sampleBatchEnv tdOk (by decide)

/-- With the wrapper disabled (continue mode), a successful collect merges
the engine timings into the runner result. -/
theorem runExecStage_collect_ok_continue (E : ℕ) (env : SingleEnv)
    (r : ExecResult) (j : JObj) (htest : env.testRes = Except.ok r)
    (hcol : env.collectRes = Except.ok j) :
    (runExecStage true E env).1
      = collectSuccess j env.collectTotal env.collectTest
          env.collectCompile := by
  simp [runExecStage, htest, hcol]

/-- C9: on every successful collect, the timing fields of the returned
dictionary are the engine-observed wall readings taken around the
corresponding steps (total around the whole run, test around the test
exec, compile around the compile exec), overriding any same-named values
the runner wrote into result.json, while every other field of the runner's
dictionary is preserved. -/
theorem C9_engine_timings_override
    (IMAGES : List String) (co : Bool) (language : String)
    (compileT execT : ℕ) (env : SingleEnv) (td : TeardownEnv)
    (r : ExecResult) (j : JObj)
    (hlang : language ∈ IMAGES)
    (hcr : env.createRes = Except.ok ()) (hst : env.startRes = Except.ok ())
    (hput : env.putRes = Except.ok ())
    (hcompile : isPythonLang language = true ∨
      ∃ c : ExecResult, env.compileRes = Except.ok c ∧ c.exit_code = 0 ∧
        ¬ env.compileWall > (compileT : ℚ))
    (htest : env.testRes = Except.ok r)
    (hcol : env.collectRes = Except.ok j)
    (hmode : co = true ∨
      (¬ env.testWall > (execT : ℚ) ∧ r.exit_code ≠ 124)) :
    runResult (run_microservice IMAGES co language compileT execT env td)
      = some (collectSuccess j env.collectTotal env.collectTest
          env.collectCompile) ∧
    JObj.get (collectSuccess j env.collectTotal env.collectTest
        env.collectCompile) kTotalExecutionTime
      = some (JVal.num env.collectTotal) ∧
    JObj.get (collectSuccess j env.collectTotal env.collectTest
        env.collectCompile) kTestExecutionTime
      = some (JVal.num env.collectTest) ∧
    JObj.get (collectSuccess j env.collectTotal env.collectTest
        env.collectCompile) kCompileExecutionTime
      = some (JVal.num env.collectCompile) ∧
    ∀ k, k ≠ kTotalExecutionTime → k ≠ kTestExecutionTime →
      k ≠ kCompileExecutionTime →
      JObj.get (collectSuccess j env.collectTotal env.collectTest
          env.collectCompile) k = JObj.get j k := by
  have hres := runResult_reaches_exec IMAGES co language compileT execT env
    td hlang hcr hst hput hcompile
  refine ⟨?_, collectSuccess_get_total j _ _ _,
    collectSuccess_get_test j _ _ _, collectSuccess_get_compile j _ _ _, ?_⟩
  · rcases hmode with hco | ⟨hw, h124⟩
    · subst hco
      rw [hres, runExecStage_collect_ok_continue execT env r j htest hcol]
    · cases co
      · rw [hres, runExecStage_collect_ok execT env r j htest hw h124 hcol]
      · rw [hres, runExecStage_collect_ok_continue execT env r j htest hcol]
  · intro k h1 h2 h3
    unfold collectSuccess
    rw [JObj.get_set_ne _ _ _ _ h3, JObj.get_set_ne _ _ _ _ h2,
      JObj.get_set_ne _ _ _ _ h1]

/-- A runner result that lies about its timings. -/
def lyingResultJson : JObj :=
  [(kStatus, JVal.str sSuccessStatus),
   (kTotalExecutionTime, JVal.num 42),
   (kTestExecutionTime, JVal.num 42),
   (kCompileExecutionTime, JVal.num 42)]

/-- A concrete environment whose collect returns the lying result; the
engine observed walls 3 (total), 1 (test) and 2 (compile). -/
def overrideEnv : SingleEnv :=
  ⟨Except.ok (), Except.ok (), Except.ok (),
   Except.ok ⟨0, []⟩, 1, Except.ok (),
   Except.ok ⟨0, []⟩, 1, Except.ok (),
   Except.ok lyingResultJson, 3, 1, 2, 3, 1⟩

/-- C9, instantiated: the runner's claimed 42-second timings are replaced
by the engine-observed readings. -/
theorem C9_witness :
    runResult (run_microservice ["c"] false "c" 30 10 overrideEnv tdOk)
      = some (collectSuccess lyingResultJson 3 1 2) ∧
    JObj.get (collectSuccess lyingResultJson 3 1 2) kTotalExecutionTime
      = some (JVal.num 3) ∧
    JObj.get (collectSuccess lyingResultJson 3 1 2) kStatus
      = some (JVal.str sSuccessStatus) := by
  have h := C9_engine_timings_override ["c"] false "c" 30 10 overrideEnv
    tdOk ⟨0, []⟩ lyingResultJson (by decide) rfl rfl rfl
    (Or.inr ⟨⟨0, []⟩, rfl, rfl, by decide⟩) rfl rfl
    (Or.inr ⟨by decide, by decide⟩)
  exact ⟨h.1, h.2.1,
    (h.2.2.2.2 kStatus (by decide) (by decide) (by decide)).trans (by rfl)⟩

/-- C7: a submission whose user_code is empty or longer than 50,000
characters is rejected as `InvalidRequest` before the engine runs: the
outcome is not a verdict and carries no container trace, so no Sandbox was
created for it.  (The validator is modelled from the spec; the repository's
request-model module is not part of src/.) -/
theorem C7_pre_engine_reject
    (IMAGES : List String) (co : Bool) (language : String) (T E : ℕ)
    (user_code : String) (env : SingleEnv) (td : TeardownEnv)
    (hbad : user_code.length = 0 ∨ user_code.length > 50000) :
    submit_pipeline IMAGES co language T E user_code env td
      = SubmitOutcome.invalidRequest := by
  have hv : validate_user_code user_code = false := by
    unfold validate_user_code
    rcases hbad with h | h
    · simp [h]
    · simp
      omega
  simp [submit_pipeline, hv]

/-- C7, instantiated on the empty submission. -/
theorem C7_witness :
    submit_pipeline ["c"] false "c" 30 10 "" sampleEnvTimeout tdOk
      = SubmitOutcome.invalidRequest :=
  C7_pre_engine_reject ["c"] false "c" 30 10 "" sampleEnvTimeout tdOk
    (Or.inl rfl)

/-- C8: the status string of every result reaching the response conversion
is coerced case-insensitively to its canonical variant (the chosen variant
upper-cases to the same letters and is one of the known variants), and an
unknown status string is answered with the `ERROR` response instead of an
escaping exception.  (The status enumeration is modelled from the spec; the
repository's response-model module is not part of src/.) -/
theorem C8_status_coercion (result : JObj) :
    (∀ s v, JObj.get result kStatus = some (JVal.str s) →
      judgeStatusOfString s = some v →
      (execute_judge_sync_convert result).status = v) ∧
    (∀ s v, judgeStatusOfString s = some v →
      strUp v = strUp s ∧ v ∈ judgeStatusStrings) ∧
    (∀ s, JObj.get result kStatus = some (JVal.str s) →
      judgeStatusOfString s = none →
      (execute_judge_sync_convert result).status = sErrorStatus) := by
  refine ⟨?_, ?_, ?_⟩
  · intro s v hget hco
    simp [execute_judge_sync_convert, convert_legacy_result_to_response,
      hget, hco]
  · intro s v hco
    refine ⟨?_, List.mem_of_find?_eq_some hco⟩
    have := List.find?_some hco
    simpa using this
  · intro s hget hco
    simp [execute_judge_sync_convert, convert_legacy_result_to_response,
      hget, hco]

def lowerSuccessWord : String := "success"
def bogusStatusWord : String := "NO_SUCH_STATUS"

/-- C8, instantiated: a lower-case "success" coerces to the SUCCESS
variant; an unknown status string yields the ERROR response. -/
theorem C8_witness :
    (execute_judge_sync_convert [(kStatus, JVal.str lowerSuccessWord)]).status
      = sSuccessStatus ∧
    (execute_judge_sync_convert [(kStatus, JVal.str bogusStatusWord)]).status
      = sErrorStatus :=
  ⟨(C8_status_coercion [(kStatus, JVal.str lowerSuccessWord)]).1
      lowerSuccessWord sSuccessStatus rfl (by decide),
   (C8_status_coercion [(kStatus, JVal.str bogusStatusWord)]).2.2
      bogusStatusWord rfl (by decide)⟩
